import Mathlib

/-!
Verification of the sample-rate drift analyzer of `debug_md_lsl_stream.py`
(repository F2HEAL/lsl-tools).

The analyzer `analyze_sample_rate_drift(timestamps, nominal_rate, duration)`
is a pure numeric function: it returns an error record when fewer than two
timestamps are supplied, and otherwise builds a flat statistics record (a
Python dict) of drift and jitter metrics.  We embed it shallowly: timestamps
and rates are exact rationals, and the four fields produced by `np.std`
(a square root, in general irrational) live in `ℝ` via `Real.sqrt`.

The source has two kinds of division.  The scalar divisions at lines 153
(`len(timestamps) / nominal_rate`) and 161/165 (division by
`actual_duration = timestamps[-1] - timestamps[0]`) are pure-Python float
divisions: they raise `ZeroDivisionError` when the divisor is zero
(`nominal_rate == 0`, or a zero data span such as `[5.0, 5.0]`).  These two
raise paths are modelled as explicit `Except.error` branches, tested in the
order the source would reach them.  All the remaining divisions are
numpy-mediated (`1.0 / np.diff(...)`, `np.std / np.mean`): numpy never
raises, it produces `inf`/`nan` silently, and for those fields the embedding
keeps Mathlib's total convention `x / 0 = 0` (the IEEE non-finite values
have no rational counterpart, but no error is raised there, matching the
source).  The division by `expected_duration` at line 156 cannot be zero
once `nominal_rate ≠ 0` and the length guard passed, so it needs no branch.

Also embedded: the two timing-quality classification policies that the
callers `print_stream_statistics` and `measure_sample_rate_drift` apply to
`abs(rate_error_percent)`.
-/

namespace LslTools

/-- `np.diff`: consecutive differences, `diff[i] = l[i+1] - l[i]`,
one element shorter than `l`. -/
def npDiff (l : List ℚ) : List ℚ :=
  List.zipWith (fun a b => b - a) l l.tail

/-- `np.mean` on a list of rationals (mean of the empty list is totalized
to `0` by the `x / 0 = 0` convention; the analyzer never takes the mean of
an empty list). -/
def listMean (l : List ℚ) : ℚ :=
  l.sum / l.length

/-- Population variance, the square of `np.std` (default `ddof=0`):
mean of the squared deviations from the mean. -/
def listVar (l : List ℚ) : ℚ :=
  ((l.map (fun x => (x - listMean l) ^ 2)).sum) / l.length

/-- `np.std`: population standard deviation, the square root of the
population variance. -/
noncomputable def listStd (l : List ℚ) : ℝ :=
  Real.sqrt (listVar l)

/-- `np.min` on a nonempty list (totalized to `0` on the empty list, which
the analyzer never passes). -/
def listMin : List ℚ → ℚ
  | [] => 0
  | x :: xs => xs.foldl min x

/-- `np.max` on a nonempty list (totalized to `0` on the empty list, which
the analyzer never passes). -/
def listMax : List ℚ → ℚ
  | [] => 0
  | x :: xs => xs.foldl max x

/-- The statistics record returned by `analyze_sample_rate_drift`: one field
per key of the Python dict built at lines 159–177 of
`debug_md_lsl_stream.py`. -/
structure DriftReport where
  nominal_rate : ℚ
  actual_mean_rate : ℚ
  rate_error_percent : ℚ
  total_drift_seconds : ℚ
  drift_ppm : ℚ
  drift_per_minute : ℚ
  instantaneous_rates_mean : ℚ
  instantaneous_rates_std : ℝ
  instantaneous_rates_min : ℚ
  instantaneous_rates_max : ℚ
  intervals_mean : ℚ
  intervals_std : ℝ
  intervals_cv : ℝ
  jitter_ms : ℝ
  n_samples : ℕ
  duration_actual : ℚ
  duration_expected : ℚ

/-- The statistics record the analyzer builds once the length guard has
passed and neither scalar division raises (the body of
`analyze_sample_rate_drift` after line 147, verbatim: each field is the
exact expression of the corresponding dict entry).  `analyze_sample_rate_drift`
only reaches this record when `nominal_rate` and the data span are nonzero,
so the scalar divisions here are genuine; the remaining divisions are the
numpy-mediated ones that never raise. -/
noncomputable def driftReportOf (timestamps : List ℚ) (nominal_rate : ℚ) : DriftReport :=
  let inter_sample_intervals := npDiff timestamps
  let instantaneous_rates := inter_sample_intervals.map (fun x => 1 / x)
  let expected_duration : ℚ := (timestamps.length : ℚ) / nominal_rate
  let actual_duration : ℚ := timestamps.getLastD 0 - timestamps.headD 0
  let total_drift : ℚ := actual_duration - expected_duration
  { nominal_rate := nominal_rate
    actual_mean_rate := (timestamps.length : ℚ) / actual_duration
    rate_error_percent := (((timestamps.length : ℚ) / actual_duration - nominal_rate) / nominal_rate) * 100
    total_drift_seconds := total_drift
    drift_ppm := (total_drift / expected_duration) * 1000000
    drift_per_minute := (total_drift / actual_duration) * 60
    instantaneous_rates_mean := listMean instantaneous_rates
    instantaneous_rates_std := listStd instantaneous_rates
    instantaneous_rates_min := listMin instantaneous_rates
    instantaneous_rates_max := listMax instantaneous_rates
    intervals_mean := listMean inter_sample_intervals
    intervals_std := listStd inter_sample_intervals
    intervals_cv := (listStd inter_sample_intervals / (listMean inter_sample_intervals : ℝ)) * 100
    jitter_ms := listStd inter_sample_intervals * 1000
    n_samples := timestamps.length
    duration_actual := actual_duration
    duration_expected := expected_duration }

/-- `analyze_sample_rate_drift` (lines 143–179): the `{"error": ...}` dict
returned under the length guard becomes the first `Except.error` branch; the
`ZeroDivisionError` raised by the pure-Python division by `nominal_rate`
(line 153) and, after it, by the division by the data span
`actual_duration` (line 161, first dict entry that divides by it) become the
next two error branches, in source evaluation order; the completed
statistics dict becomes `Except.ok`.  The `duration` parameter is kept in
the signature exactly as in the source, where the body never reads it. -/
noncomputable def analyze_sample_rate_drift (timestamps : List ℚ) (nominal_rate : ℚ)
    (duration : ℚ) : Except String DriftReport :=
  if timestamps.length < 2 then
    .error "Insufficient timestamps for drift analysis"
  else if nominal_rate = 0 then
    .error "ZeroDivisionError: float division by zero"
  else if timestamps.getLastD 0 - timestamps.headD 0 = 0 then
    .error "ZeroDivisionError: float division by zero"
  else
    .ok (driftReportOf timestamps nominal_rate)

/-- Four-band stability assessment of `measure_sample_rate_drift`
(lines 359–367), applied to the report's `rate_error_percent`. -/
def stability_assessment (rate_error_percent : ℚ) : String :=
  if |rate_error_percent| < 0.1 then "Excellent (laboratory grade)"
  else if |rate_error_percent| < 1.0 then "Good (research grade)"
  else if |rate_error_percent| < 5.0 then "Fair (consumer grade)"
  else "Poor (unstable)"

/-- Two-threshold timing quality of `print_stream_statistics`
(lines 253–259), applied to the report's `rate_error_percent`. -/
def timing_quality (rate_error_percent : ℚ) : String :=
  if |rate_error_percent| < 1.0 then "Excellent"
  else if |rate_error_percent| < 5.0 then "Good"
  else "Poor"

/-- The perfectly spaced timestamp family of the spec's perfect-rate
round-trip property: `[i / r for i in 0..N-1]`. -/
def perfectTimestamps (r : ℚ) (N : ℕ) : List ℚ :=
  (List.range N).map (fun i : ℕ => (i : ℚ) / r)

/-- Timestamps whose consecutive intervals alternate `0.0009` and `0.0011`
seconds, starting at time `t`, with `k` interval pairs (`2k+1` timestamps). -/
def altTimestampsFrom : ℚ → ℕ → List ℚ
  | t, 0 => [t]
  | t, k + 1 => t :: (t + 9 / 10000) :: altTimestampsFrom (t + 1 / 500) k

/-- The alternating-jitter timestamp family of the spec's jitter-detection
property, starting at time `0`. -/
def altTimestamps (k : ℕ) : List ℚ :=
  altTimestampsFrom 0 k

/-- The interval sequence the alternating family produces: `k` copies of
the pair `0.0009, 0.0011`. -/
def altIntervals : ℕ → List ℚ
  | 0 => []
  | k + 1 => (9 / 10000) :: (11 / 10000) :: altIntervals k

/-! ### Basic lemmas about the embedded list primitives -/

theorem npDiff_nil : npDiff [] = [] := rfl

theorem npDiff_single (a : ℚ) : npDiff [a] = [] := rfl

theorem npDiff_cons₂ (a b : ℚ) (t : List ℚ) :
    npDiff (a :: b :: t) = (b - a) :: npDiff (b :: t) := rfl

theorem npDiff_length (l : List ℚ) : (npDiff l).length = l.length - 1 := by
  simp [npDiff]

theorem listMean_replicate (k : ℕ) (c : ℚ) (hk : k ≠ 0) :
    listMean (List.replicate k c) = c := by
  simp [listMean, List.sum_replicate, mul_comm]
  rw [mul_div_assoc, div_self (by exact_mod_cast hk), mul_one]

theorem listVar_replicate (k : ℕ) (c : ℚ) (hk : k ≠ 0) :
    listVar (List.replicate k c) = 0 := by
  simp [listVar, listMean_replicate k c hk, List.map_replicate]

theorem listStd_replicate (k : ℕ) (c : ℚ) (hk : k ≠ 0) :
    listStd (List.replicate k c) = 0 := by
  simp [listStd, listVar_replicate k c hk]

theorem listMin_replicate (k : ℕ) (c : ℚ) : listMin (List.replicate (k + 1) c) = c := by
  induction k with
  | zero => rfl
  | succ n ih =>
    rw [List.replicate_succ] at ih
    rw [show List.replicate (n + 1 + 1) c = c :: c :: List.replicate n c by
      simp [List.replicate_succ]]
    simpa [listMin, min_self] using ih

theorem listMax_replicate (k : ℕ) (c : ℚ) : listMax (List.replicate (k + 1) c) = c := by
  induction k with
  | zero => rfl
  | succ n ih =>
    rw [List.replicate_succ] at ih
    rw [show List.replicate (n + 1 + 1) c = c :: c :: List.replicate n c by
      simp [List.replicate_succ]]
    simpa [listMax, max_self] using ih

theorem npDiff_get (l : List ℚ) (i : ℕ) (h : i < (npDiff l).length) :
    (npDiff l).get ⟨i, h⟩ =
      l.get ⟨i + 1, by rw [npDiff_length] at h; omega⟩ -
        l.get ⟨i, by rw [npDiff_length] at h; omega⟩ := by
  simp only [npDiff, List.get_eq_getElem, List.getElem_zipWith, List.getElem_tail]

theorem npDiff_getD (l : List ℚ) (i : ℕ) (h : i + 1 < l.length) :
    (npDiff l).getD i 0 = l.getD (i + 1) 0 - l.getD i 0 := by
  have hi : i < (npDiff l).length := by rw [npDiff_length]; omega
  rw [List.getD_eq_getElem _ _ hi, List.getD_eq_getElem _ _ h,
    List.getD_eq_getElem _ _ (by omega : i < l.length)]
  simpa [List.get_eq_getElem] using npDiff_get l i hi

theorem perfectTimestamps_length (r : ℚ) (N : ℕ) :
    (perfectTimestamps r N).length = N := by
  rw [perfectTimestamps, List.length_map, List.length_range]

theorem npDiff_perfect (r : ℚ) (N : ℕ) :
    npDiff (perfectTimestamps r N) = List.replicate (N - 1) (1 / r) := by
  apply List.ext_getElem
  · rw [npDiff_length, perfectTimestamps_length]
    simp
  · intro i h1 h2
    have key := npDiff_get (perfectTimestamps r N) i h1
    simp only [List.get_eq_getElem] at key
    rw [key]
    simp only [perfectTimestamps, List.getElem_map, List.getElem_range,
      List.getElem_replicate]
    rw [div_sub_div_same]
    push_cast
    ring_nf

theorem perfect_getLastD (r : ℚ) (N : ℕ) (hN : 1 ≤ N) :
    (perfectTimestamps r N).getLastD 0 = ((N : ℚ) - 1) / r := by
  obtain ⟨M, rfl⟩ : ∃ M, N = M + 1 := ⟨N - 1, by omega⟩
  rw [perfectTimestamps, List.range_succ, List.map_append]
  simp [List.getLastD_concat]

theorem perfect_headD (r : ℚ) (N : ℕ) (hN : 1 ≤ N) :
    (perfectTimestamps r N).headD 0 = 0 := by
  obtain ⟨M, rfl⟩ : ∃ M, N = M + 1 := ⟨N - 1, by omega⟩
  rw [perfectTimestamps, List.range_succ_eq_map]
  simp

theorem analyze_eq_ok (ts : List ℚ) (r d : ℚ) (h : 2 ≤ ts.length) (hr : r ≠ 0)
    (hspan : ts.getLastD 0 - ts.headD 0 ≠ 0) :
    analyze_sample_rate_drift ts r d = .ok (driftReportOf ts r) := by
  rw [analyze_sample_rate_drift, if_neg (by omega), if_neg hr, if_neg hspan]

theorem analyze_eq_zero_span (ts : List ℚ) (r d : ℚ) (h : 2 ≤ ts.length) (hr : r ≠ 0)
    (hspan : ts.getLastD 0 - ts.headD 0 = 0) :
    analyze_sample_rate_drift ts r d = .error "ZeroDivisionError: float division by zero" := by
  rw [analyze_sample_rate_drift, if_neg (by omega), if_neg hr, if_pos hspan]

theorem perfect_span_ne (r : ℚ) (N : ℕ) (hr : 0 < r) (hN : 2 ≤ N) :
    (perfectTimestamps r N).getLastD 0 - (perfectTimestamps r N).headD 0 ≠ 0 := by
  rw [perfect_getLastD r N (by omega), perfect_headD r N (by omega), sub_zero]
  have hNQ : (2 : ℚ) ≤ (N : ℚ) := by exact_mod_cast hN
  exact div_ne_zero (by linarith) (ne_of_gt hr)

theorem driftReportOf_perfect (r : ℚ) (N : ℕ) (hr : 0 < r) (hN : 2 ≤ N) :
    (driftReportOf (perfectTimestamps r N) r).duration_actual = ((N : ℚ) - 1) / r
    ∧ (driftReportOf (perfectTimestamps r N) r).duration_expected = (N : ℚ) / r
    ∧ (driftReportOf (perfectTimestamps r N) r).total_drift_seconds = -(1 / r)
    ∧ (driftReportOf (perfectTimestamps r N) r).drift_ppm = -(1000000 / (N : ℚ))
    ∧ (driftReportOf (perfectTimestamps r N) r).actual_mean_rate = r * (N : ℚ) / ((N : ℚ) - 1)
    ∧ (driftReportOf (perfectTimestamps r N) r).rate_error_percent = 100 / ((N : ℚ) - 1)
    ∧ (driftReportOf (perfectTimestamps r N) r).jitter_ms = 0
    ∧ (driftReportOf (perfectTimestamps r N) r).intervals_cv = 0 := by
  have hr0 : r ≠ 0 := ne_of_gt hr
  have hk : N - 1 ≠ 0 := by omega
  have hNQ : (2 : ℚ) ≤ (N : ℚ) := by exact_mod_cast hN
  have hN1 : (N : ℚ) - 1 ≠ 0 := by linarith
  have hN0 : (N : ℚ) ≠ 0 := by linarith
  have hdiff : npDiff (perfectTimestamps r N) = List.replicate (N - 1) (1 / r) :=
    npDiff_perfect r N
  have hstd : listStd (npDiff (perfectTimestamps r N)) = 0 := by
    rw [hdiff]; exact listStd_replicate _ _ hk
  have hmean : listMean (npDiff (perfectTimestamps r N)) = 1 / r := by
    rw [hdiff]; exact listMean_replicate _ _ hk
  have hlast := perfect_getLastD r N (by omega)
  have hhead := perfect_headD r N (by omega)
  have hlen := perfectTimestamps_length r N
  simp only [driftReportOf, hstd, hmean, hlast, hhead, hlen, sub_zero]
  refine ⟨trivial, trivial, ?_, ?_, ?_, ?_, ?_, ?_⟩
  · field_simp
  · field_simp
  · rw [div_div_eq_mul_div, mul_comm]
  · field_simp
    ring
  · norm_num
  · norm_num

theorem altTimestampsFrom_cons (t : ℚ) (k : ℕ) :
    ∃ tl, altTimestampsFrom t k = t :: tl := by
  cases k with
  | zero => exact ⟨[], rfl⟩
  | succ n => exact ⟨_, rfl⟩

theorem altTimestampsFrom_length (k : ℕ) :
    ∀ t, (altTimestampsFrom t k).length = 2 * k + 1 := by
  induction k with
  | zero => intro t; rfl
  | succ n ih =>
    intro t
    show (t :: (t + 9 / 10000) :: altTimestampsFrom (t + 1 / 500) n).length = 2 * (n + 1) + 1
    rw [List.length_cons, List.length_cons, ih]
    omega

theorem npDiff_altTimestampsFrom (k : ℕ) :
    ∀ t, npDiff (altTimestampsFrom t k) = altIntervals k := by
  induction k with
  | zero => intro t; rfl
  | succ n ih =>
    intro t
    obtain ⟨tl, htl⟩ := altTimestampsFrom_cons (t + 1 / 500) n
    show npDiff (t :: (t + 9 / 10000) :: altTimestampsFrom (t + 1 / 500) n) = _
    rw [htl, npDiff_cons₂, npDiff_cons₂, ← htl, ih]
    show _ = (9 / 10000 : ℚ) :: (11 / 10000 : ℚ) :: altIntervals n
    norm_num

theorem altIntervals_length (k : ℕ) : (altIntervals k).length = 2 * k := by
  induction k with
  | zero => rfl
  | succ n ih =>
    show ((9 / 10000 : ℚ) :: (11 / 10000 : ℚ) :: altIntervals n).length = 2 * (n + 1)
    rw [List.length_cons, List.length_cons, ih]
    omega

theorem altIntervals_sum (k : ℕ) : (altIntervals k).sum = (k : ℚ) * (1 / 500) := by
  induction k with
  | zero => simp [altIntervals]
  | succ n ih =>
    show ((9 / 10000 : ℚ) :: (11 / 10000 : ℚ) :: altIntervals n).sum = _
    rw [List.sum_cons, List.sum_cons, ih]
    push_cast
    ring

theorem altIntervals_sqdev (k : ℕ) :
    ((altIntervals k).map (fun x => (x - 1 / 1000) ^ 2)).sum = (k : ℚ) * (2 / 10 ^ 8) := by
  induction k with
  | zero => simp [altIntervals]
  | succ n ih =>
    show (((9 / 10000 : ℚ) :: (11 / 10000 : ℚ) :: altIntervals n).map
        (fun x => (x - 1 / 1000) ^ 2)).sum = _
    rw [List.map_cons, List.map_cons, List.sum_cons, List.sum_cons, ih]
    push_cast
    ring_nf

theorem altIntervals_mean (k : ℕ) (hk : 1 ≤ k) :
    listMean (altIntervals k) = 1 / 1000 := by
  have hk0 : (k : ℚ) ≠ 0 := Nat.cast_ne_zero.mpr (by omega)
  rw [listMean, altIntervals_sum, altIntervals_length]
  push_cast
  field_simp
  ring

theorem altIntervals_var (k : ℕ) (hk : 1 ≤ k) :
    listVar (altIntervals k) = 1 / 10 ^ 8 := by
  have hk0 : (k : ℚ) ≠ 0 := Nat.cast_ne_zero.mpr (by omega)
  rw [listVar, altIntervals_mean k hk, altIntervals_sqdev, altIntervals_length]
  push_cast
  field_simp
  ring

theorem altIntervals_std (k : ℕ) (hk : 1 ≤ k) :
    listStd (altIntervals k) = 1 / 10 ^ 4 := by
  rw [listStd, altIntervals_var k hk]
  rw [show (((1 / 10 ^ 8 : ℚ) : ℝ)) = (1 / 10 ^ 4 : ℝ) ^ 2 by norm_num]
  exact Real.sqrt_sq (by norm_num)

theorem driftReportOf_alt (k : ℕ) (r : ℚ) (hk : 1 ≤ k) :
    (driftReportOf (altTimestamps k) r).jitter_ms = 1 / 10
    ∧ (driftReportOf (altTimestamps k) r).intervals_cv = 10 := by
  have hdiff : npDiff (altTimestamps k) = altIntervals k := npDiff_altTimestampsFrom k 0
  have hstd : listStd (npDiff (altTimestamps k)) = 1 / 10 ^ 4 := by
    rw [hdiff]; exact altIntervals_std k hk
  have hmean : listMean (npDiff (altTimestamps k)) = 1 / 1000 := by
    rw [hdiff]; exact altIntervals_mean k hk
  constructor
  · simp only [driftReportOf, hstd]
    norm_num
  · simp only [driftReportOf, hstd, hmean]
    push_cast
    norm_num

theorem getLastD_map_mul (c : ℚ) (l : List ℚ) (hl : l ≠ []) :
    (l.map (fun x => c * x)).getLastD 0 = c * l.getLastD 0 := by
  rcases List.eq_nil_or_concat l with rfl | ⟨L, b, rfl⟩
  · exact absurd rfl hl
  · rw [List.concat_eq_append, List.map_append]
    simp [List.getLastD_concat]

theorem headD_map_mul (c : ℚ) (l : List ℚ) (hl : l ≠ []) :
    (l.map (fun x => c * x)).headD 0 = c * l.headD 0 := by
  cases l with
  | nil => exact absurd rfl hl
  | cons a t => rfl

/-! ### Claim theorems -/

/-- C1 counterexample: the duplicate-timestamp input `[5, 5]` has length 2 and
a strictly positive nominal rate, yet the analyzer raises `ZeroDivisionError`
(the pure-Python division by the zero data span at line 161) instead of
returning a report — so the claimed "no exception beyond the cardinality
precondition" is false. -/
theorem zero_span_raises_cex :
    2 ≤ ([5, 5] : List ℚ).length ∧ (0 : ℚ) < 1000
    ∧ analyze_sample_rate_drift [5, 5] 1000 3
        = .error "ZeroDivisionError: float division by zero"
    ∧ analyze_sample_rate_drift [5, 5] 1000 3
        ≠ .error "Insufficient timestamps for drift analysis" := by
  have h := analyze_eq_zero_span [5, 5] 1000 3 (by norm_num) (by norm_num)
    (show (5 : ℚ) - 5 = 0 by norm_num)
  refine ⟨by norm_num, by norm_num, h, ?_⟩
  rw [h]
  simp

/-- C1 amended: the analyzer signals insufficient data exactly when fewer than
2 timestamps are supplied; for length at least 2 and a positive nominal rate
it returns the report without error if and only if the data span
`timestamps[-1] - timestamps[0]` is nonzero, and raises `ZeroDivisionError`
when the span is zero (the pure-Python scalar division at line 161); the
numpy-computed fields never raise, so other degenerate conditions (zero
individual intervals with nonzero span) surface only as non-finite values in
the report. -/
theorem analyze_error_policy (ts : List ℚ) (r d : ℚ) (hr : 0 < r) :
    (analyze_sample_rate_drift ts r d = .error "Insufficient timestamps for drift analysis"
      ↔ ts.length < 2)
    ∧ (2 ≤ ts.length →
        (analyze_sample_rate_drift ts r d = .ok (driftReportOf ts r)
          ↔ ts.getLastD 0 - ts.headD 0 ≠ 0))
    ∧ (2 ≤ ts.length → ts.getLastD 0 - ts.headD 0 = 0 →
        analyze_sample_rate_drift ts r d
          = .error "ZeroDivisionError: float division by zero") := by
  have hr0 : r ≠ 0 := ne_of_gt hr
  refine ⟨?_, ?_, fun hlen hspan => analyze_eq_zero_span ts r d hlen hr0 hspan⟩
  · by_cases h : ts.length < 2
    · rw [analyze_sample_rate_drift, if_pos h]
      exact ⟨fun _ => h, fun _ => rfl⟩
    · rw [analyze_sample_rate_drift, if_neg h, if_neg hr0]
      by_cases hspan : ts.getLastD 0 - ts.headD 0 = 0
      · rw [if_pos hspan]
        exact ⟨fun heq => absurd heq (by simp), fun hlt => absurd hlt h⟩
      · rw [if_neg hspan]
        exact ⟨fun heq => absurd heq (by simp), fun hlt => absurd hlt h⟩
  · intro hlen
    constructor
    · intro hok hspan
      rw [analyze_eq_zero_span ts r d hlen hr0 hspan] at hok
      exact absurd hok (by simp)
    · intro hspan
      exact analyze_eq_ok ts r d hlen hr0 hspan

/-- C1 witness: the error policy evaluated at `ts = [0, 1]`, `r = 1`. -/
theorem analyze_error_policy_witness :
    (0 : ℚ) < 1
    ∧ (analyze_sample_rate_drift [0, 1] 1 0
        = .error "Insufficient timestamps for drift analysis"
      ↔ ([0, 1] : List ℚ).length < 2)
    ∧ (2 ≤ ([0, 1] : List ℚ).length →
        (analyze_sample_rate_drift [0, 1] 1 0 = .ok (driftReportOf [0, 1] 1)
          ↔ ([0, 1] : List ℚ).getLastD 0 - ([0, 1] : List ℚ).headD 0 ≠ 0)) :=
  ⟨by norm_num, (analyze_error_policy [0, 1] 1 0 (by norm_num)).1,
    (analyze_error_policy [0, 1] 1 0 (by norm_num)).2.1⟩

/-- C2 counterexample: on the perfectly spaced input `[0, 1]` (rate `r = 1`,
count `N = 2`, elapsed duration `(N-1)/r = 1`), the report's
`rate_error_percent` and `drift_ppm` are not zero, contradicting the claimed
perfect-rate round trip. -/
theorem perfect_rate_zero_cex :
    (analyze_sample_rate_drift (perfectTimestamps 1 2) 1 1).toOption.map
        DriftReport.rate_error_percent ≠ some 0
    ∧ (analyze_sample_rate_drift (perfectTimestamps 1 2) 1 1).toOption.map
        DriftReport.drift_ppm ≠ some 0 := by
  obtain ⟨h1, h2, h3, h4, h5, h6, h7, h8⟩ := driftReportOf_perfect 1 2 one_pos (le_refl 2)
  rw [analyze_eq_ok _ _ _ (by simp [perfectTimestamps_length]) (by norm_num)
    (perfect_span_ne 1 2 one_pos (le_refl 2))]
  constructor
  · simp only [Except.toOption, Option.map_some', ne_eq, Option.some.injEq, h6]
    norm_num
  · simp only [Except.toOption, Option.map_some', ne_eq, Option.some.injEq, h4]
    norm_num

/-- C2 amended: on perfectly spaced timestamps `[i / r, i in 0..N-1]` with
nominal rate `r` and elapsed duration `(N-1)/r`, the report has
`jitter_ms = 0` and `intervals_cv = 0`, but `rate_error_percent = 100/(N-1)`
and `drift_ppm = -1000000/N` (both nonzero for every `N ≥ 2`). -/
theorem perfect_rate_round_trip (r : ℚ) (N : ℕ) (hr : 0 < r) (hN : 2 ≤ N) :
    analyze_sample_rate_drift (perfectTimestamps r N) r (((N : ℚ) - 1) / r)
      = .ok (driftReportOf (perfectTimestamps r N) r)
    ∧ (driftReportOf (perfectTimestamps r N) r).jitter_ms = 0
    ∧ (driftReportOf (perfectTimestamps r N) r).intervals_cv = 0
    ∧ (driftReportOf (perfectTimestamps r N) r).rate_error_percent = 100 / ((N : ℚ) - 1)
    ∧ (driftReportOf (perfectTimestamps r N) r).drift_ppm = -(1000000 / (N : ℚ)) := by
  obtain ⟨h1, h2, h3, h4, h5, h6, h7, h8⟩ := driftReportOf_perfect r N hr hN
  exact ⟨analyze_eq_ok _ _ _ (by rw [perfectTimestamps_length]; omega) (ne_of_gt hr)
    (perfect_span_ne r N hr hN), h7, h8, h6, h4⟩

/-- C2 witness: the amended round trip evaluated at `r = 1`, `N = 3`. -/
theorem perfect_rate_round_trip_witness :
    (0 : ℚ) < 1 ∧ 2 ≤ 3
    ∧ (driftReportOf (perfectTimestamps 1 3) 1).jitter_ms = 0
    ∧ (driftReportOf (perfectTimestamps 1 3) 1).rate_error_percent = 100 / (((3 : ℕ) : ℚ) - 1) :=
  ⟨by norm_num, by omega, (perfect_rate_round_trip 1 3 one_pos (by omega)).2.1,
    (perfect_rate_round_trip 1 3 one_pos (by omega)).2.2.2.1⟩

/-- C3: for every timestamp sequence of length at least 2 and positive
nominal rate, the report's fields satisfy the spec's formula chain
(`duration_expected = N / nominal_rate` with `N` the sample count,
`duration_actual = timestamps[last] - timestamps[0]`, and so on), and
`total_drift_seconds` is positive exactly when the actual duration exceeds
the expected one, equivalently (for a positive data span) when the actual
mean rate is below the nominal rate. -/
theorem drift_formula_chain (ts : List ℚ) (r d : ℚ) (hlen : 2 ≤ ts.length) (hr : 0 < r) :
    (ts.getLastD 0 - ts.headD 0 ≠ 0 →
      analyze_sample_rate_drift ts r d = .ok (driftReportOf ts r))
    ∧ (driftReportOf ts r).duration_expected = (ts.length : ℚ) / r
    ∧ (driftReportOf ts r).duration_actual = ts.getLastD 0 - ts.headD 0
    ∧ (driftReportOf ts r).total_drift_seconds
        = (driftReportOf ts r).duration_actual - (driftReportOf ts r).duration_expected
    ∧ (driftReportOf ts r).drift_ppm
        = ((driftReportOf ts r).total_drift_seconds / (driftReportOf ts r).duration_expected)
            * 1000000
    ∧ (driftReportOf ts r).actual_mean_rate
        = (ts.length : ℚ) / (driftReportOf ts r).duration_actual
    ∧ (driftReportOf ts r).rate_error_percent
        = (((driftReportOf ts r).actual_mean_rate - r) / r) * 100
    ∧ (driftReportOf ts r).drift_per_minute
        = ((driftReportOf ts r).total_drift_seconds / (driftReportOf ts r).duration_actual) * 60
    ∧ (0 < (driftReportOf ts r).total_drift_seconds
        ↔ (driftReportOf ts r).duration_expected < (driftReportOf ts r).duration_actual)
    ∧ (0 < (driftReportOf ts r).duration_actual →
        (0 < (driftReportOf ts r).total_drift_seconds
          ↔ (driftReportOf ts r).actual_mean_rate < r)) := by
  refine ⟨fun hspan => analyze_eq_ok ts r d hlen (ne_of_gt hr) hspan,
    rfl, rfl, rfl, rfl, rfl, rfl, rfl, sub_pos, ?_⟩
  intro hD
  have hD' : 0 < ts.getLastD 0 - ts.headD 0 := hD
  show 0 < (ts.getLastD 0 - ts.headD 0) - (ts.length : ℚ) / r
      ↔ (ts.length : ℚ) / (ts.getLastD 0 - ts.headD 0) < r
  rw [sub_pos, div_lt_iff₀ hr, div_lt_iff₀ hD', mul_comm]

/-- C3 witness: the formula chain evaluated at `ts = [0, 1, 4]`, `r = 2`,
`d = 7`. -/
theorem drift_formula_chain_witness :
    2 ≤ ([0, 1, 4] : List ℚ).length ∧ (0 : ℚ) < 2
    ∧ analyze_sample_rate_drift [0, 1, 4] 2 7 = .ok (driftReportOf [0, 1, 4] 2)
    ∧ (driftReportOf [0, 1, 4] 2).duration_expected = 3 / 2 :=
  ⟨by norm_num, by norm_num,
    (drift_formula_chain [0, 1, 4] 2 7 (by norm_num) (by norm_num)).1
      (show (4 : ℚ) - 0 ≠ 0 by norm_num),
    by simpa using (drift_formula_chain [0, 1, 4] 2 7 (by norm_num) (by norm_num)).2.1⟩

/-- C7: the analyzer is deterministic — equal inputs give equal outputs; in
this pure functional embedding of the source (which reads no global state and
performs no I/O) the result depends on nothing but the three arguments. -/
theorem analyze_deterministic (ts₁ ts₂ : List ℚ) (r₁ r₂ d₁ d₂ : ℚ)
    (hts : ts₁ = ts₂) (hr : r₁ = r₂) (hd : d₁ = d₂) :
    analyze_sample_rate_drift ts₁ r₁ d₁ = analyze_sample_rate_drift ts₂ r₂ d₂ := by
  subst hts
  subst hr
  subst hd
  rfl

/-- C7 witness: determinism evaluated at a concrete call. -/
theorem analyze_deterministic_witness :
    ([0, 1] : List ℚ) = [0, 1]
    ∧ analyze_sample_rate_drift [0, 1] 1 2 = analyze_sample_rate_drift [0, 1] 1 2 :=
  ⟨rfl, analyze_deterministic [0, 1] [0, 1] 1 1 2 2 rfl rfl rfl⟩

/-- C8 counterexample: with exactly 2 timestamps that are equal (`[7, 7]`) the
analyzer does not succeed — the zero data span raises `ZeroDivisionError` at
line 161 — refuting the claim that a call with exactly 2 timestamps
succeeds. -/
theorem two_equal_timestamps_cex :
    analyze_sample_rate_drift [7, 7] 1 1
      = .error "ZeroDivisionError: float division by zero"
    ∧ (analyze_sample_rate_drift [7, 7] 1 1).toOption = none := by
  have h := analyze_eq_zero_span [7, 7] 1 1 (by norm_num) (by norm_num)
    (show (7 : ℚ) - 7 = 0 by norm_num)
  exact ⟨h, by rw [h]; rfl⟩

/-- C8 amended: calling with 0 or 1 timestamps yields the insufficient-data
error; calling with exactly 2 timestamps succeeds if and only if the nominal
rate is nonzero and the two timestamps differ — equal timestamps give a zero
data span and raise `ZeroDivisionError` — and on success the computation
operates on exactly one interval and one instantaneous rate; the interval
sequence of `N` timestamps has `N - 1` elements with
`interval[i] = timestamps[i+1] - timestamps[i]`. -/
theorem minimum_length_policy :
    (∀ r d : ℚ, analyze_sample_rate_drift [] r d
      = .error "Insufficient timestamps for drift analysis")
    ∧ (∀ t r d : ℚ, analyze_sample_rate_drift [t] r d
      = .error "Insufficient timestamps for drift analysis")
    ∧ (∀ t₀ t₁ r d : ℚ, r ≠ 0 → t₁ - t₀ ≠ 0 →
        analyze_sample_rate_drift [t₀, t₁] r d = .ok (driftReportOf [t₀, t₁] r))
    ∧ (∀ t r d : ℚ, r ≠ 0 →
        analyze_sample_rate_drift [t, t] r d
          = .error "ZeroDivisionError: float division by zero")
    ∧ (∀ t₀ t₁ : ℚ, npDiff [t₀, t₁] = [t₁ - t₀]
        ∧ (npDiff [t₀, t₁]).map (fun x => 1 / x) = [1 / (t₁ - t₀)])
    ∧ (∀ ts : List ℚ, (npDiff ts).length = ts.length - 1)
    ∧ (∀ (ts : List ℚ) (i : ℕ), i + 1 < ts.length →
        (npDiff ts).getD i 0 = ts.getD (i + 1) 0 - ts.getD i 0) := by
  refine ⟨fun r d => rfl, fun t r d => rfl,
    fun t₀ t₁ r d hr hdiff => analyze_eq_ok _ _ _ (by norm_num) hr hdiff,
    fun t r d hr => analyze_eq_zero_span _ _ _ (by norm_num) hr (sub_self t),
    fun t₀ t₁ => ⟨rfl, rfl⟩, npDiff_length, npDiff_getD⟩

/-- C8 witness: the two-timestamp success case at `[0, 1]` with rate 1, and
the indexed interval identity at `ts = [0, 1, 3]`, `i = 1`. -/
theorem minimum_length_policy_witness :
    ((1 : ℚ) ≠ 0) ∧ ((1 : ℚ) - 0 ≠ 0)
    ∧ analyze_sample_rate_drift [0, 1] 1 1 = .ok (driftReportOf [0, 1] 1)
    ∧ (1 : ℕ) + 1 < ([0, 1, 3] : List ℚ).length
    ∧ (npDiff [0, 1, 3]).getD 1 0
        = ([0, 1, 3] : List ℚ).getD 2 0 - ([0, 1, 3] : List ℚ).getD 1 0 :=
  ⟨by norm_num, by norm_num,
    minimum_length_policy.2.2.1 0 1 1 1 (by norm_num) (by norm_num),
    by norm_num, minimum_length_policy.2.2.2.2.2.2 [0, 1, 3] 1 (by norm_num)⟩

/-- C9: the report is completely independent of the elapsed-duration
argument — the function body never reads it, so any two duration values give
identical output. -/
theorem analyze_ignores_duration (ts : List ℚ) (r d₁ d₂ : ℚ) :
    analyze_sample_rate_drift ts r d₁ = analyze_sample_rate_drift ts r d₂ := rfl

/-- C10: because `expected_duration` and `actual_mean_rate` divide the sample
count `N` rather than the interval count `N - 1`, the analyzer is biased on
perfectly regular input: `actual_mean_rate = r * N / (N - 1) > r`,
`rate_error_percent = 100 / (N - 1) > 0`, and
`total_drift_seconds = -1/r < 0`. -/
theorem perfect_input_bias (r : ℚ) (N : ℕ) (d : ℚ) (hr : 0 < r) (hN : 2 ≤ N) :
    analyze_sample_rate_drift (perfectTimestamps r N) r d
      = .ok (driftReportOf (perfectTimestamps r N) r)
    ∧ (driftReportOf (perfectTimestamps r N) r).actual_mean_rate
        = r * (N : ℚ) / ((N : ℚ) - 1)
    ∧ r < (driftReportOf (perfectTimestamps r N) r).actual_mean_rate
    ∧ (driftReportOf (perfectTimestamps r N) r).rate_error_percent = 100 / ((N : ℚ) - 1)
    ∧ 0 < (driftReportOf (perfectTimestamps r N) r).rate_error_percent
    ∧ (driftReportOf (perfectTimestamps r N) r).total_drift_seconds = -(1 / r)
    ∧ (driftReportOf (perfectTimestamps r N) r).total_drift_seconds < 0 := by
  obtain ⟨h1, h2, h3, h4, h5, h6, h7, h8⟩ := driftReportOf_perfect r N hr hN
  have hNQ : (2 : ℚ) ≤ (N : ℚ) := by exact_mod_cast hN
  have hN1 : (0 : ℚ) < (N : ℚ) - 1 := by linarith
  refine ⟨analyze_eq_ok _ _ _ (by rw [perfectTimestamps_length]; omega) (ne_of_gt hr)
    (perfect_span_ne r N hr hN), h5, ?_, h6, ?_, h3, ?_⟩
  · rw [h5, lt_div_iff₀ hN1]
    nlinarith
  · rw [h6]
    exact div_pos (by norm_num) hN1
  · rw [h3]
    have : 0 < 1 / r := by positivity
    linarith

/-- C10 witness: the bias evaluated at `r = 1`, `N = 2`, `d = 5`. -/
theorem perfect_input_bias_witness :
    (0 : ℚ) < 1 ∧ 2 ≤ 2
    ∧ (driftReportOf (perfectTimestamps 1 2) 1).rate_error_percent = 100 / (((2 : ℕ) : ℚ) - 1)
    ∧ (driftReportOf (perfectTimestamps 1 2) 1).total_drift_seconds < 0 :=
  ⟨by norm_num, by omega, (perfect_input_bias 1 2 5 one_pos (by omega)).2.2.2.1,
    (perfect_input_bias 1 2 5 one_pos (by omega)).2.2.2.2.2.2⟩

/-- C4 counterexample: multiplying all timestamps and the nominal rate by
the same factor `c = 2` (input `[0, 1]` at rate 1 versus `[0, 2]` at rate 2)
changes `rate_error_percent` from 100 to -50 and `drift_ppm` from -500000 to
1000000, so the claimed invariance fails. -/
theorem scale_invariance_cex :
    (([0, 1] : List ℚ).map (fun x => 2 * x)) = [0, 2]
    ∧ (analyze_sample_rate_drift [0, 1] 1 1).toOption.map
        DriftReport.rate_error_percent = some 100
    ∧ (analyze_sample_rate_drift [0, 2] 2 1).toOption.map
        DriftReport.rate_error_percent = some (-50)
    ∧ (analyze_sample_rate_drift [0, 1] 1 1).toOption.map
        DriftReport.drift_ppm = some (-500000)
    ∧ (analyze_sample_rate_drift [0, 2] 2 1).toOption.map
        DriftReport.drift_ppm = some 1000000
    ∧ ((100 : ℚ) ≠ -50) ∧ ((-500000 : ℚ) ≠ 1000000) := by
  have e1 : analyze_sample_rate_drift [0, 1] 1 1 = .ok (driftReportOf [0, 1] 1) :=
    analyze_eq_ok _ _ _ (by norm_num) (by norm_num) (show (1 : ℚ) - 0 ≠ 0 by norm_num)
  have e2 : analyze_sample_rate_drift [0, 2] 2 1 = .ok (driftReportOf [0, 2] 2) :=
    analyze_eq_ok _ _ _ (by norm_num) (by norm_num) (show (2 : ℚ) - 0 ≠ 0 by norm_num)
  rw [e1, e2]
  refine ⟨by norm_num, ?_, ?_, ?_, ?_, by norm_num, by norm_num⟩ <;>
    simp only [Except.toOption, Option.map_some', Option.some.injEq] <;>
    norm_num [driftReportOf, List.getLastD]

/-- C4 amended: `rate_error_percent` and `drift_ppm` are invariant under the
unit change that multiplies all timestamps by `c > 0` and divides the nominal
rate by `c` (with the unused elapsed duration held to any values); they are
not invariant when both are multiplied by `c`, as the counterexample shows. -/
theorem scale_invariance_unit_change (ts : List ℚ) (r d₁ d₂ c : ℚ)
    (hlen : 2 ≤ ts.length) (hc : 0 < c) :
    (r ≠ 0 → ts.getLastD 0 - ts.headD 0 ≠ 0 →
      analyze_sample_rate_drift ts r d₁ = .ok (driftReportOf ts r))
    ∧ (r ≠ 0 → ts.getLastD 0 - ts.headD 0 ≠ 0 →
      analyze_sample_rate_drift (ts.map (fun x => c * x)) (r / c) d₂
        = .ok (driftReportOf (ts.map (fun x => c * x)) (r / c)))
    ∧ (driftReportOf (ts.map (fun x => c * x)) (r / c)).rate_error_percent
        = (driftReportOf ts r).rate_error_percent
    ∧ (driftReportOf (ts.map (fun x => c * x)) (r / c)).drift_ppm
        = (driftReportOf ts r).drift_ppm := by
  have hc0 : c ≠ 0 := ne_of_gt hc
  have hne : ts ≠ [] := by
    intro h
    rw [h] at hlen
    simp at hlen
  have hlast := getLastD_map_mul c ts hne
  have hhead := headD_map_mul c ts hne
  have hmaplen : (ts.map (fun x => c * x)).length = ts.length := List.length_map ts _
  refine ⟨fun hr hspan => analyze_eq_ok _ _ _ hlen hr hspan,
    fun hr hspan => analyze_eq_ok _ _ _ (by rw [hmaplen]; omega) (div_ne_zero hr hc0)
      (by
        rw [hlast, hhead,
          show c * ts.getLastD 0 - c * ts.headD 0 = c * (ts.getLastD 0 - ts.headD 0) by ring]
        exact mul_ne_zero hc0 hspan),
    ?_, ?_⟩
  · show (((ts.map (fun x => c * x)).length : ℚ) /
          ((ts.map (fun x => c * x)).getLastD 0 - (ts.map (fun x => c * x)).headD 0)
        - r / c) / (r / c) * 100
      = ((ts.length : ℚ) / (ts.getLastD 0 - ts.headD 0) - r) / r * 100
    rw [hmaplen, hlast, hhead]
    rw [show c * ts.getLastD 0 - c * ts.headD 0 = (ts.getLastD 0 - ts.headD 0) * c by ring]
    rw [div_mul_eq_div_div, div_sub_div_same, div_div_div_cancel_right₀ hc0]
  · show (((ts.map (fun x => c * x)).getLastD 0 - (ts.map (fun x => c * x)).headD 0)
          - ((ts.map (fun x => c * x)).length : ℚ) / (r / c))
        / (((ts.map (fun x => c * x)).length : ℚ) / (r / c)) * 1000000
      = ((ts.getLastD 0 - ts.headD 0) - (ts.length : ℚ) / r)
        / ((ts.length : ℚ) / r) * 1000000
    rw [hmaplen, hlast, hhead]
    rw [show ((ts.length : ℚ)) / (r / c) = ((ts.length : ℚ) / r) * c by
      rw [div_div_eq_mul_div, mul_div_right_comm]]
    rw [show c * ts.getLastD 0 - c * ts.headD 0 - ((ts.length : ℚ) / r) * c
        = (ts.getLastD 0 - ts.headD 0 - (ts.length : ℚ) / r) * c by ring]
    rw [mul_div_mul_right _ _ hc0]

/-- C4 witness: the unit-change invariance evaluated at `ts = [0, 1]`,
`r = 1`, `c = 2`. -/
theorem scale_invariance_unit_change_witness :
    2 ≤ ([0, 1] : List ℚ).length ∧ (0 : ℚ) < 2
    ∧ (driftReportOf (([0, 1] : List ℚ).map (fun x => 2 * x)) (1 / 2)).rate_error_percent
        = (driftReportOf [0, 1] 1).rate_error_percent :=
  ⟨by norm_num, by norm_num,
    (scale_invariance_unit_change [0, 1] 1 3 4 2 (by norm_num) (by norm_num)).2.2.1⟩

/-- C5: the quality classifications use strict thresholds on
`abs(rate_error_percent)`: the four-band policy yields
"Excellent (laboratory grade)" below 0.1, "Good (research grade)" below 1,
"Fair (consumer grade)" below 5, otherwise "Poor (unstable)"; the short
two-threshold policy yields "Excellent" below 1, "Good" below 5, otherwise
"Poor"; in particular 0.05, 0.5, 2, 10 classify as the four bands and
0.5, 2 as "Excellent", "Good". -/
theorem quality_band_policies :
    (∀ x : ℚ, (|x| < 0.1 → stability_assessment x = "Excellent (laboratory grade)")
      ∧ (0.1 ≤ |x| → |x| < 1.0 → stability_assessment x = "Good (research grade)")
      ∧ (1.0 ≤ |x| → |x| < 5.0 → stability_assessment x = "Fair (consumer grade)")
      ∧ (5.0 ≤ |x| → stability_assessment x = "Poor (unstable)"))
    ∧ (∀ x : ℚ, (|x| < 1.0 → timing_quality x = "Excellent")
      ∧ (1.0 ≤ |x| → |x| < 5.0 → timing_quality x = "Good")
      ∧ (5.0 ≤ |x| → timing_quality x = "Poor"))
    ∧ stability_assessment 0.05 = "Excellent (laboratory grade)"
    ∧ stability_assessment 0.5 = "Good (research grade)"
    ∧ stability_assessment 2 = "Fair (consumer grade)"
    ∧ stability_assessment 10 = "Poor (unstable)"
    ∧ timing_quality 0.5 = "Excellent"
    ∧ timing_quality 2 = "Good" := by
  refine ⟨fun x => ⟨?_, ?_, ?_, ?_⟩, fun x => ⟨?_, ?_, ?_⟩,
    by rw [stability_assessment,
      if_pos (show |(0.05 : ℚ)| < 0.1 by rw [abs_of_nonneg (by norm_num)]; norm_num)],
    by rw [stability_assessment,
      if_neg (show ¬|(0.5 : ℚ)| < 0.1 by rw [abs_of_nonneg (by norm_num)]; norm_num),
      if_pos (show |(0.5 : ℚ)| < 1.0 by rw [abs_of_nonneg (by norm_num)]; norm_num)],
    by rw [stability_assessment,
      if_neg (show ¬|(2 : ℚ)| < 0.1 by rw [abs_of_nonneg (by norm_num)]; norm_num),
      if_neg (show ¬|(2 : ℚ)| < 1.0 by rw [abs_of_nonneg (by norm_num)]; norm_num),
      if_pos (show |(2 : ℚ)| < 5.0 by rw [abs_of_nonneg (by norm_num)]; norm_num)],
    by rw [stability_assessment,
      if_neg (show ¬|(10 : ℚ)| < 0.1 by rw [abs_of_nonneg (by norm_num)]; norm_num),
      if_neg (show ¬|(10 : ℚ)| < 1.0 by rw [abs_of_nonneg (by norm_num)]; norm_num),
      if_neg (show ¬|(10 : ℚ)| < 5.0 by rw [abs_of_nonneg (by norm_num)]; norm_num)],
    by rw [timing_quality,
      if_pos (show |(0.5 : ℚ)| < 1.0 by rw [abs_of_nonneg (by norm_num)]; norm_num)],
    by rw [timing_quality,
      if_neg (show ¬|(2 : ℚ)| < 1.0 by rw [abs_of_nonneg (by norm_num)]; norm_num),
      if_pos (show |(2 : ℚ)| < 5.0 by rw [abs_of_nonneg (by norm_num)]; norm_num)]⟩
  · intro h1
    rw [stability_assessment, if_pos h1]
  · intro hge hlt
    rw [stability_assessment, if_neg (by linarith), if_pos hlt]
  · intro hge hlt
    rw [stability_assessment, if_neg (by linarith), if_neg (by linarith), if_pos hlt]
  · intro hge
    rw [stability_assessment, if_neg (by linarith), if_neg (by linarith),
      if_neg (by linarith)]
  · intro h1
    rw [timing_quality, if_pos h1]
  · intro hge hlt
    rw [timing_quality, if_neg (by linarith), if_pos hlt]
  · intro hge
    rw [timing_quality, if_neg (by linarith), if_neg (by linarith)]

/-- C5 witness: the four-band policy applied at `0.05`, discharging the
band's hypothesis. -/
theorem quality_band_policies_witness :
    |(0.05 : ℚ)| < 0.1
    ∧ stability_assessment 0.05 = "Excellent (laboratory grade)" :=
  ⟨by rw [abs_of_nonneg (by norm_num)]; norm_num,
    (quality_band_policies.1 0.05).1 (by rw [abs_of_nonneg (by norm_num)]; norm_num)⟩

/-- C6: the report's `jitter_ms` is the population standard deviation of the
consecutive-interval sequence times 1000 and `intervals_cv` is that standard
deviation over the interval mean times 100; on timestamps whose intervals
alternate between 0.0009 and 0.0011 seconds (any number `k ≥ 1` of interval
pairs, hence an even number of intervals), `jitter_ms` is strictly positive
and `intervals_cv` equals 10. -/
theorem jitter_detection (ts : List ℚ) (r d rk : ℚ) (k : ℕ)
    (hts : 2 ≤ ts.length) (hk : 1 ≤ k) :
    (r ≠ 0 → ts.getLastD 0 - ts.headD 0 ≠ 0 →
      analyze_sample_rate_drift ts r d = .ok (driftReportOf ts r))
    ∧ (driftReportOf ts r).jitter_ms = listStd (npDiff ts) * 1000
    ∧ (driftReportOf ts r).intervals_cv
        = (listStd (npDiff ts) / ((listMean (npDiff ts) : ℚ) : ℝ)) * 100
    ∧ 0 < (driftReportOf (altTimestamps k) rk).jitter_ms
    ∧ (driftReportOf (altTimestamps k) rk).intervals_cv = 10 := by
  obtain ⟨hj, hcv⟩ := driftReportOf_alt k rk hk
  refine ⟨fun hr hspan => analyze_eq_ok ts r d hts hr hspan, rfl, rfl, ?_, hcv⟩
  rw [hj]
  norm_num

/-- C6 witness: jitter detection evaluated on one interval pair (`k = 1`,
three timestamps). -/
theorem jitter_detection_witness :
    2 ≤ (altTimestamps 1).length ∧ 1 ≤ 1
    ∧ (driftReportOf (altTimestamps 1) 1000).intervals_cv = 10 :=
  ⟨by rw [altTimestamps, altTimestampsFrom_length]; omega, le_refl 1,
    (jitter_detection (altTimestamps 1) 1000 0 1000 1
      (by rw [altTimestamps, altTimestampsFrom_length]; omega) (le_refl 1)).2.2.2.2⟩

end LslTools
